import Mathlib

/-!
Verification of the kanjo configuration model, error taxonomy and run tracker.

The Go sources are embedded shallowly:

* Go errors become the inductive `GoError`; `fmt.Errorf` without a `%w` verb is
  `GoError.errorf`, `fmt.Errorf("...: %w", err)` is `GoError.wrapf` (the format
  text before `%w` is stored as the message piece), and the three structured
  error types of the `errors` package are the remaining constructors.
  `errors.As` with a `*ConfigurationError` target walks the `Unwrap` chain,
  which `IsConfigurationError` reproduces by structural recursion.
* Pointer-receiver methods become functions returning the updated receiver
  (paired with the `error` result where the method returns one).
* `utils.RandomString` draws from `crypto/rand`; its result is passed in as an
  explicit `rnd` argument wherever `Config.Validate` would call it.
* Go's `range` over a slice of structs yields a copy of each element, so the
  pointer-receiver `Validate` calls inside the loops of `Config.Validate` and
  `AggregationConfig.Validate` mutate only that copy: defaults filled for a
  nested entry are discarded, and only the `error` result escapes the loop.
  The embedding keeps exactly this behaviour.
* `uint64` fields are `Nat` with arithmetic taken `% 2^64` where Go would wrap
  (`sub64` below); `float64` arithmetic on those values is modelled exactly in
  `ℚ` (the sign and magnitude classification used by the claims are unaffected
  by `float64` rounding); `time.Time`/`time.Duration` are `Int` nanoseconds.
-/

namespace Kanjo

/-- Go error values reachable in this package: plain `fmt.Errorf` messages,
`fmt.Errorf` wrapping with `%w`, and the three structured error types of the
`errors` package. -/
inductive GoError where
  | errorf (msg : String)
  | wrapf (pre : String) (cause : GoError)
  | configurationError (field message : String) (cause : Option GoError)
  | authenticationError (message : String) (cause : Option GoError)
      (retryAttempt maxRetries : Int)
  | dataProcessError (step message : String) (cause : Option GoError)
      (recoverable : Bool) (recoveryAction : String)

/-- Message produced by the `Error()` method of each error value. -/
def GoError.message : GoError → String
  | .errorf msg => msg
  | .wrapf pre cause => pre ++ cause.message
  | .configurationError field msg _ =>
      if field ≠ "" then
        "configuration error in field '" ++ field ++ "': " ++ msg
      else
        "configuration error: " ++ msg
  | .authenticationError msg _ _ _ => "authentication error: " ++ msg
  | .dataProcessError step msg _ _ _ =>
      if step ≠ "" then
        "data process error in step '" ++ step ++ "': " ++ msg
      else
        "data process error: " ++ msg

/-- Result of `errors.As(err, &target)` for a `*ConfigurationError` target:
true exactly when the error or something in its `Unwrap` chain is a
`ConfigurationError` (embeds `IsConfigurationError`). -/
def IsConfigurationError : GoError → Bool
  | .errorf _ => false
  | .wrapf _ cause => IsConfigurationError cause
  | .configurationError _ _ _ => true
  | .authenticationError _ cause _ _ =>
      match cause with
      | none => false
      | some c => IsConfigurationError c
  | .dataProcessError _ _ cause _ _ =>
      match cause with
      | none => false
      | some c => IsConfigurationError c

/-- AuthenticationError struct of the `errors` package. -/
structure AuthenticationError where
  message : String
  cause : Option GoError
  retryAttempt : Int
  maxRetries : Int

/-- IsRetryable: `e.RetryAttempt < e.MaxRetries`. -/
def AuthenticationError.IsRetryable (e : AuthenticationError) : Bool :=
  e.retryAttempt < e.maxRetries

/-- IncrementRetryAttempt: `e.RetryAttempt++`. -/
def AuthenticationError.IncrementRetryAttempt
    (e : AuthenticationError) : AuthenticationError :=
  { e with retryAttempt := e.retryAttempt + 1 }

/-- NewAuthenticationError: retryAttempt starts at 0, maxRetries defaults to 3. -/
def NewAuthenticationError (message : String) (cause : Option GoError) :
    AuthenticationError :=
  { message := message, cause := cause, retryAttempt := 0, maxRetries := 3 }

/-- NewAuthenticationErrorWithMaxRetries: retryAttempt 0, caller-chosen maxRetries. -/
def NewAuthenticationErrorWithMaxRetries (message : String)
    (cause : Option GoError) (maxRetries : Int) : AuthenticationError :=
  { message := message, cause := cause, retryAttempt := 0,
    maxRetries := maxRetries }

/-- FilterConfig of the entities package. -/
structure FilterConfig where
  column : String
  value : String
  operator : String
  logicalOperator : String
  deriving Repr, DecidableEq

/-- MergeConfig of the entities package. -/
structure MergeConfig where
  firstColumn : String
  secondColumn : String
  strategy : String
  defaultValues : List String
  resultColumnName : String
  deriving Repr, DecidableEq

/-- Aggregation of the entities package. -/
structure Aggregation where
  column : String
  aggregateMethod : String
  resultName : String
  deriving Repr, DecidableEq

/-- AggregationConfig of the entities package. -/
structure AggregationConfig where
  groupingColumns : List String
  aggregations : List Aggregation
  deriving Repr, DecidableEq

/-- Config of the entities package. -/
structure Config where
  name : String
  description : String
  creator : String
  type : String
  source : String
  filters : List FilterConfig
  mergeColumns : List MergeConfig
  aggregations : List AggregationConfig
  outputFormat : String
  deriving Repr, DecidableEq

/-- Zero value of `Config` (Go's `Config{}`: empty strings, nil slices). -/
def Config.zero : Config :=
  { name := "", description := "", creator := "", type := "", source := "",
    filters := [], mergeColumns := [], aggregations := [], outputFormat := "" }

/-- Operator set of `FilterConfig.Validate`. -/
def validateOperators : List String := ["eq", "neq", "gt", "gte", "lt", "lte"]

/-- Logical-operator set of `FilterConfig.Validate`. -/
def validateLogicalOperators : List String := ["and", "or"]

/-- Strategy set of `MergeConfig.Validate`. -/
def validateStrategies : List String := ["concat", "sum", "first", "second"]

/-- Aggregate-method set of `Aggregation.Validate`. -/
def validateAggregateMethods : List String :=
  ["sum", "avg", "min", "max", "count", "median"]

/-- FilterConfig.Validate: the updated receiver (never changed) and the Go
`error` result. -/
def FilterConfig.Validate (fc : FilterConfig) :
    FilterConfig × Option GoError :=
  if fc.column = "" then
    (fc, some (.errorf "column is required"))
  else if fc.value = "" then
    (fc, some (.errorf "value is required"))
  else if ¬ validateOperators.contains fc.operator then
    (fc, some (.errorf ("invalid operator '" ++ fc.operator ++
      "', operator must be one of [eq neq gt gte lt lte]")))
  else if ¬ validateLogicalOperators.contains fc.logicalOperator then
    (fc, some (.errorf ("invalid logical operator '" ++ fc.logicalOperator ++
      "', operator must be one of [and or]")))
  else
    (fc, none)

/-- MergeConfig.Validate: fills the `strategy` and `resultColumnName` defaults
on the receiver, then checks the strategy set. -/
def MergeConfig.Validate (m : MergeConfig) : MergeConfig × Option GoError :=
  if m.firstColumn = "" then
    (m, some (.errorf "firstColumn is required"))
  else if m.secondColumn = "" then
    (m, some (.errorf "secondColumn is required"))
  else
    let m := if m.strategy = "" then { m with strategy := "concat" } else m
    let m := if m.resultColumnName = "" then
      { m with resultColumnName := m.firstColumn ++ "_" ++ m.secondColumn }
    else m
    if ¬ validateStrategies.contains m.strategy then
      (m, some (.errorf ("invalid strategy '" ++ m.strategy ++
        "', strategy must be one of [concat sum first second]")))
    else
      (m, none)

/-- Aggregation.Validate: fills the `resultName` default on the receiver, then
checks the aggregate-method set. -/
def Aggregation.Validate (a : Aggregation) : Aggregation × Option GoError :=
  if a.column = "" then
    (a, some (.errorf "column is required"))
  else if a.aggregateMethod = "" then
    (a, some (.errorf "aggregateMethod is required"))
  else
    let a := if a.resultName = "" then
      { a with resultName := a.column ++ "_" ++ a.aggregateMethod }
    else a
    if ¬ validateAggregateMethods.contains a.aggregateMethod then
      (a, some (.errorf ("invalid aggregateMethod '" ++ a.aggregateMethod ++
        "', aggregateMethod must be one of [sum avg min max count median]")))
    else
      (a, none)

/-- Go loop `for i, x := range xs { if err := x.Validate(); err != nil { return
fmt.Errorf(label + "[%d]: %w", i, err) } }`. The `range` variable is a copy of
the element, so the receiver state returned by `f` is discarded — only the
error escapes, wrapped with the collection label and index. -/
def validateLoop {α : Type} (label : String) (f : α → α × Option GoError) :
    Nat → List α → Option GoError
  | _, [] => none
  | i, x :: xs =>
    match (f x).2 with
    | some e => some (.wrapf (label ++ "[" ++ toString i ++ "]: ") e)
    | none => validateLoop label f (i + 1) xs

/-- AggregationConfig.Validate: non-empty `groupingColumns` and `aggregations`,
then each nested `Aggregation` validated on a loop copy. -/
def AggregationConfig.Validate (ac : AggregationConfig) :
    AggregationConfig × Option GoError :=
  if ac.groupingColumns.length = 0 then
    (ac, some (.errorf "groupingColumns cannot be empty"))
  else if ac.aggregations.length = 0 then
    (ac, some (.errorf "aggregations cannot be empty"))
  else
    match validateLoop "aggregation" Aggregation.Validate 0 ac.aggregations with
    | some e => (ac, some e)
    | none => (ac, none)

/-- Statement `if c.Name == "" { c.Name = "UntitledConfig_" + utils.RandomString(10) }`
of `Config.Validate`, with the random draw passed in as `rnd`. -/
def Config.fillName (rnd : String) (c : Config) : Config :=
  if c.name = "" then { c with name := "UntitledConfig_" ++ rnd } else c

/-- Statement `if c.OutputFormat == "" { c.OutputFormat = "csv" }` of
`Config.Validate`. -/
def Config.fillOutputFormat (c : Config) : Config :=
  if c.outputFormat = "" then { c with outputFormat := "csv" } else c

/-- Config.Validate: fills `name` (from `utils.RandomString`, passed in as
`rnd`) and `outputFormat` defaults, requires non-blank `type` and `source`,
then validates filters, mergeColumns and aggregations in order on loop
copies. Returns the updated receiver and the Go `error` result. -/
def Config.Validate (rnd : String) (c : Config) : Config × Option GoError :=
  let c := Config.fillName rnd c
  if c.type = "" then
    (c, some (.errorf "type is required, valid values are: csv, googlesheets"))
  else if c.source = "" then
    (c, some (.errorf "source is required"))
  else
    let c := Config.fillOutputFormat c
    match validateLoop "filter" FilterConfig.Validate 0 c.filters with
    | some e => (c, some e)
    | none =>
      match validateLoop "mergeColumn" MergeConfig.Validate 0 c.mergeColumns with
      | some e => (c, some e)
      | none =>
        match validateLoop "aggregation" AggregationConfig.Validate 0
            c.aggregations with
        | some e => (c, some e)
        | none => (c, none)

/-- JSON values, at the level `encoding/json` exchanges them for `Config`
(only strings, arrays and objects occur for its field types; the textual
rendering `MarshalIndent` produces and `Unmarshal` reparses is injective, so
the round trip is settled on this tree). -/
inductive Json where
  | str (s : String)
  | arr (xs : List Json)
  | obj (fields : List (String × Json))

/-- Marshal of `FilterConfig` per its struct tags (no `omitempty`). -/
def FilterConfig.toJson (fc : FilterConfig) : Json :=
  .obj [("column", .str fc.column), ("value", .str fc.value),
    ("operator", .str fc.operator),
    ("logicalOperator", .str fc.logicalOperator)]

/-- Marshal of `MergeConfig` per its struct tags (`defaultValues` and
`resultColumnName` carry `omitempty`). -/
def MergeConfig.toJson (m : MergeConfig) : Json :=
  .obj ([("firstColumn", .str m.firstColumn),
    ("secondColumn", .str m.secondColumn),
    ("strategy", .str m.strategy)] ++
    (if m.defaultValues.isEmpty then []
     else [("defaultValues", .arr (m.defaultValues.map .str))]) ++
    (if m.resultColumnName = "" then []
     else [("resultColumnName", .str m.resultColumnName)]))

/-- Marshal of `Aggregation` per its struct tags (`resultName` carries
`omitempty`). -/
def Aggregation.toJson (a : Aggregation) : Json :=
  .obj ([("column", .str a.column),
    ("aggregateMethod", .str a.aggregateMethod)] ++
    (if a.resultName = "" then [] else [("resultName", .str a.resultName)]))

/-- Marshal of `AggregationConfig` per its struct tags (no `omitempty`). -/
def AggregationConfig.toJson (ac : AggregationConfig) : Json :=
  .obj [("groupingColumns", .arr (ac.groupingColumns.map .str)),
    ("aggregations", .arr (ac.aggregations.map Aggregation.toJson))]

/-- ToJSON of `Config`: `json.MarshalIndent` per the struct tags (the three
slice fields carry `omitempty`). -/
def Config.ToJSON (c : Config) : Json :=
  .obj ([("name", .str c.name), ("description", .str c.description),
    ("creator", .str c.creator), ("type", .str c.type),
    ("source", .str c.source)] ++
    (if c.filters.isEmpty then []
     else [("filters", .arr (c.filters.map FilterConfig.toJson))]) ++
    (if c.mergeColumns.isEmpty then []
     else [("mergeColumns", .arr (c.mergeColumns.map MergeConfig.toJson))]) ++
    (if c.aggregations.isEmpty then []
     else [("aggregations",
        .arr (c.aggregations.map AggregationConfig.toJson))]) ++
    [("outputFormat", .str c.outputFormat)])

/-- Unmarshal of one string field: an absent key leaves the receiver's value,
a present key must hold a string. -/
def decodeStr (j : Option Json) (old : String) : Option String :=
  match j with
  | none => some old
  | some (.str s) => some s
  | some _ => none

/-- Unmarshal of a `[]string` field: an absent key leaves the receiver's
value, a present key must hold an array of strings. -/
def decodeStrList (j : Option Json) (old : List String) :
    Option (List String) :=
  match j with
  | none => some old
  | some (.arr xs) => xs.mapM fun x =>
      match x with
      | .str s => some s
      | _ => none
  | some _ => none

/-- Unmarshal of a slice-of-structs field: an absent key leaves the
receiver's value; a present key must hold an array, whose elements are each
decoded into a zero-valued element (Go resets the slice and appends). -/
def decodeObjList {α : Type} (dec : Json → Option α) (j : Option Json)
    (old : List α) : Option (List α) :=
  match j with
  | none => some old
  | some (.arr xs) => xs.mapM dec
  | some _ => none

/-- Unmarshal of a `FilterConfig` array element (fields absent from the JSON
stay at their zero value). -/
def FilterConfig.fromJson (j : Json) : Option FilterConfig :=
  match j with
  | .obj fs => do
    let column ← decodeStr (fs.lookup "column") ""
    let value ← decodeStr (fs.lookup "value") ""
    let operator ← decodeStr (fs.lookup "operator") ""
    let logicalOperator ← decodeStr (fs.lookup "logicalOperator") ""
    some { column := column, value := value, operator := operator,
           logicalOperator := logicalOperator }
  | _ => none

/-- Unmarshal of a `MergeConfig` array element. -/
def MergeConfig.fromJson (j : Json) : Option MergeConfig :=
  match j with
  | .obj fs => do
    let firstColumn ← decodeStr (fs.lookup "firstColumn") ""
    let secondColumn ← decodeStr (fs.lookup "secondColumn") ""
    let strategy ← decodeStr (fs.lookup "strategy") ""
    let defaultValues ← decodeStrList (fs.lookup "defaultValues") []
    let resultColumnName ← decodeStr (fs.lookup "resultColumnName") ""
    some { firstColumn := firstColumn, secondColumn := secondColumn,
           strategy := strategy, defaultValues := defaultValues,
           resultColumnName := resultColumnName }
  | _ => none

/-- Unmarshal of an `Aggregation` array element. -/
def Aggregation.fromJson (j : Json) : Option Aggregation :=
  match j with
  | .obj fs => do
    let column ← decodeStr (fs.lookup "column") ""
    let aggregateMethod ← decodeStr (fs.lookup "aggregateMethod") ""
    let resultName ← decodeStr (fs.lookup "resultName") ""
    some { column := column, aggregateMethod := aggregateMethod,
           resultName := resultName }
  | _ => none

/-- Unmarshal of an `AggregationConfig` array element. -/
def AggregationConfig.fromJson (j : Json) : Option AggregationConfig :=
  match j with
  | .obj fs => do
    let groupingColumns ← decodeStrList (fs.lookup "groupingColumns") []
    let aggregations ← decodeObjList Aggregation.fromJson
      (fs.lookup "aggregations") []
    some { groupingColumns := groupingColumns,
           aggregations := aggregations }
  | _ => none

/-- Unmarshal of the top-level `Config`: `json.Unmarshal` merges into the
receiver `c` — keys absent from the JSON leave the receiver's fields as they
were. -/
def Config.unmarshal (j : Json) (c : Config) : Option Config :=
  match j with
  | .obj fs => do
    let name ← decodeStr (fs.lookup "name") c.name
    let description ← decodeStr (fs.lookup "description") c.description
    let creator ← decodeStr (fs.lookup "creator") c.creator
    let type ← decodeStr (fs.lookup "type") c.type
    let source ← decodeStr (fs.lookup "source") c.source
    let filters ← decodeObjList FilterConfig.fromJson
      (fs.lookup "filters") c.filters
    let mergeColumns ← decodeObjList MergeConfig.fromJson
      (fs.lookup "mergeColumns") c.mergeColumns
    let aggregations ← decodeObjList AggregationConfig.fromJson
      (fs.lookup "aggregations") c.aggregations
    let outputFormat ← decodeStr (fs.lookup "outputFormat") c.outputFormat
    some { name := name, description := description, creator := creator,
           type := type, source := source, filters := filters,
           mergeColumns := mergeColumns, aggregations := aggregations,
           outputFormat := outputFormat }
  | _ => none

/-- FromJSON of `Config`: unmarshal into the receiver `c`, then `Validate`
(with `rnd` standing for the `utils.RandomString` draw). `none` is the
unmarshal error path. -/
def Config.FromJSON (rnd : String) (j : Json) (c : Config) :
    Option (Config × Option GoError) :=
  (Config.unmarshal j c).map (Config.Validate rnd)

/-- Go `uint64` subtraction `a - b` on values reduced mod `2^64` (wraps on
underflow). -/
def sub64 (a b : Nat) : Nat :=
  (2 ^ 64 + a % 2 ^ 64 - b % 2 ^ 64) % 2 ^ 64

/-- MemoryStats of the entities package: `uint64`/`uint32` fields as `Nat`,
the `float64` percentage as `ℚ` (exact model of the sign and value the code
computes; `float64` only rounds it). -/
structure MemoryStats where
  peakAllocBytes : Nat
  peakSysBytes : Nat
  totalAllocBytes : Nat
  finalAllocBytes : Nat
  numGC : Nat
  memoryIncreasePercent : ℚ
  deriving Repr, DecidableEq

/-- PerformanceEntry of the entities package; times are `Int` nanoseconds. -/
structure PerformanceEntry where
  stepName : String
  startTime : Int
  endTime : Int
  duration : Int
  inputRows : Int
  outputRows : Int
  memoryUsageBytes : Nat
  deriving Repr, DecidableEq

/-- ProcessingMetadata of the entities package. -/
structure ProcessingMetadata where
  sourceTotalRows : Int
  filteredTotalRows : Int
  appliedFilters : List String
  performedAggregations : List String
  performedMerges : List String
  processingTime : Int
  startTime : Int
  endTime : Int
  configName : String
  dataSource : String
  memoryStats : MemoryStats
  stepPerformance : List PerformanceEntry
  deriving Repr, DecidableEq

/-- Processing of the entities package. `Data [][]int` distinguishes the nil
slice (`none`) from a non-nil slice of rows (`some rows`), which
`GetRowCount`/`GetColumnCount` test with `p.Data == nil`. -/
structure Processing where
  data : Option (List (List Int))
  metadata : ProcessingMetadata
  deriving Repr, DecidableEq

/-- Sample of `runtime.MemStats` fields read by `runtime.ReadMemStats`. -/
structure MemStatsSample where
  alloc : Nat
  sys : Nat
  totalAlloc : Nat
  numGC : Nat
  deriving Repr, DecidableEq

/-- NewProcessing: initial metadata from the input rows, config name, start
time and an initial memory sample. -/
def NewProcessing (data : Option (List (List Int))) (configName : String)
    (startTime : Int) (initMemStats : MemStatsSample) : Processing :=
  { data := data,
    metadata :=
      { sourceTotalRows := (data.getD []).length,
        filteredTotalRows := 0,
        appliedFilters := [],
        performedAggregations := [],
        performedMerges := [],
        processingTime := 0,
        startTime := startTime,
        endTime := 0,
        configName := configName,
        dataSource := "",
        memoryStats :=
          { peakAllocBytes := initMemStats.alloc,
            peakSysBytes := initMemStats.sys,
            totalAllocBytes := initMemStats.totalAlloc,
            finalAllocBytes := 0,
            numGC := initMemStats.numGC,
            memoryIncreasePercent := 0 },
        stepPerformance := [] } }

/-- AddFilter: appends the filter expression to `AppliedFilters`. -/
def Processing.AddFilter (p : Processing) (filterExp : String) : Processing :=
  { p with metadata :=
      { p.metadata with
        appliedFilters := p.metadata.appliedFilters ++ [filterExp] } }

/-- AddAggregation: appends `fmt.Sprintf("%s(%s)", method, targetColumn)` to
`PerformedAggregations`. -/
def Processing.AddAggregation (p : Processing)
    (aggregationMethod targetColumn : String) : Processing :=
  { p with metadata :=
      { p.metadata with
        performedAggregations := p.metadata.performedAggregations ++
          [aggregationMethod ++ "(" ++ targetColumn ++ ")"] } }

/-- AddMerge: appends `fmt.Sprintf("%s + %s (%s)", first, second, strategy)`
to `PerformedMerges`. -/
def Processing.AddMerge (p : Processing)
    (firstColumn secondColumn strategy : String) : Processing :=
  { p with metadata :=
      { p.metadata with
        performedMerges := p.metadata.performedMerges ++
          [firstColumn ++ " + " ++ secondColumn ++ " (" ++ strategy ++ ")"] } }

/-- UpdateRows: overwrites the source and filtered row counts. -/
def Processing.UpdateRows (p : Processing)
    (originalRows filteredRows : Int) : Processing :=
  { p with metadata :=
      { p.metadata with
        sourceTotalRows := originalRows,
        filteredTotalRows := filteredRows } }

/-- CompleteProcess: stamps the end time and elapsed duration, copies the
final memory sample, computes the memory-increase percentage with `uint64`
subtraction (`memStats.Alloc - PeakAllocBytes` wraps when the final
allocation is below the initial peak), then raises the peaks if exceeded.
`now` and `memStats` stand for `time.Now()` and `runtime.ReadMemStats`. -/
def Processing.CompleteProcess (p : Processing) (now : Int)
    (memStats : MemStatsSample) : Processing :=
  let md := p.metadata
  let ms := md.memoryStats
  let ms := { ms with
    finalAllocBytes := memStats.alloc,
    totalAllocBytes := memStats.totalAlloc,
    numGC := memStats.numGC }
  let ms := if ms.peakAllocBytes > 0 then
    { ms with memoryIncreasePercent :=
        ((sub64 memStats.alloc ms.peakAllocBytes : ℚ) /
          (ms.peakAllocBytes : ℚ)) * 100 }
  else ms
  let ms := if memStats.alloc > ms.peakAllocBytes then
    { ms with peakAllocBytes := memStats.alloc }
  else ms
  let ms := if memStats.sys > ms.peakSysBytes then
    { ms with peakSysBytes := memStats.sys }
  else ms
  { p with metadata :=
      { md with
        endTime := now,
        processingTime := now - md.startTime,
        memoryStats := ms } }

/-- HasData: `len(p.Data) > 0` (Go's `len` of a nil slice is 0). -/
def Processing.HasData (p : Processing) : Bool :=
  (p.data.getD []).length > 0

/-- GetRowCount: 0 when `Data` is nil, else `len(p.Data)`. -/
def Processing.GetRowCount (p : Processing) : Int :=
  match p.data with
  | none => 0
  | some rows => rows.length

/-- GetColumnCount: 0 when `Data` is nil, else `len(p.Data[0])`; indexing
`p.Data[0]` panics when the slice is non-nil but empty, which the embedding
returns as `none`. -/
def Processing.GetColumnCount (p : Processing) : Option Int :=
  match p.data with
  | none => some 0
  | some rows =>
    match rows with
    | [] => none
    | r :: _ => some r.length

/-! Concrete inputs used by witness and counterexample theorems. -/

/-- An otherwise well-formed configuration whose `source` is blank. -/
def configBlankSource : Config :=
  { Config.zero with name := "n", type := "csv", source := "" }

/-- A valid filter clause. -/
def filterEq : FilterConfig :=
  { column := "c", value := "v", operator := "eq", logicalOperator := "and" }

/-- A merge directive with blank strategy and blank result column name. -/
def mergeAB : MergeConfig :=
  { firstColumn := "a", secondColumn := "b", strategy := "",
    defaultValues := [], resultColumnName := "" }

/-- A merge directive with an invalid strategy. -/
def mergeBogus : MergeConfig :=
  { firstColumn := "a", secondColumn := "b", strategy := "bogus",
    defaultValues := [], resultColumnName := "" }

/-- A valid aggregation directive. -/
def aggSum : AggregationConfig :=
  { groupingColumns := ["g"],
    aggregations := [{ column := "x", aggregateMethod := "sum",
                       resultName := "" }] }

/-- A configuration that validates successfully. -/
def configOk : Config :=
  { Config.zero with
    name := "n", type := "csv", source := "s",
    filters := [filterEq], mergeColumns := [mergeAB],
    aggregations := [aggSum] }

/-- A configuration whose second merge directive is invalid. -/
def configBadMerge : Config :=
  { configOk with mergeColumns := [mergeAB, mergeBogus] }

/-- A filter clause with an invalid logical operator. -/
def filterXor : FilterConfig :=
  { column := "c", value := "v", operator := "eq", logicalOperator := "xor" }

/-- An aggregation directive whose nested aggregation has an invalid
aggregate method. -/
def aggBogus : AggregationConfig :=
  { groupingColumns := ["g"],
    aggregations := [{ column := "x", aggregateMethod := "bogus",
                       resultName := "" }] }

/-- A configuration whose second filter clause is invalid while a merge
directive after it is also invalid: the filter error must win. -/
def configBadFilter : Config :=
  { configOk with filters := [filterEq, filterXor],
                  mergeColumns := [mergeBogus] }

/-- A configuration whose only invalid nested entry is its aggregation
directive; all filters and merges are valid. -/
def configBadAgg : Config :=
  { configOk with aggregations := [aggBogus] }

/-- A configuration whose last (and only) filter clause has a logical operator
outside the enumerated set. -/
def configBadLogical : Config :=
  { configOk with
    filters := [{ column := "c", value := "v", operator := "eq",
                  logicalOperator := "xor" }] }

/-- A run record whose initial peak allocation is 1000 bytes. -/
def procPeak1000 : Processing :=
  NewProcessing (some [[1, 2]]) "cfg" 0
    { alloc := 1000, sys := 0, totalAlloc := 0, numGC := 0 }

/-- The run record above completed with a final allocation of 500 bytes,
below the initial peak. -/
def procShrunk : Processing :=
  Processing.CompleteProcess procPeak1000 5
    { alloc := 500, sys := 0, totalAlloc := 0, numGC := 0 }

/-! Helper lemmas about the default-filling steps and the validation loop. -/

/-- Name filled from a blank name is never the empty string. -/
theorem untitled_ne_empty (rnd : String) : "UntitledConfig_" ++ rnd ≠ "" := by
  intro h
  have hlen := congrArg String.length h
  rw [String.length_append] at hlen
  have h15 : "UntitledConfig_".length = 15 := rfl
  have h0 : "".length = 0 := rfl
  rw [h15, h0] at hlen
  omega

theorem fillName_type (rnd : String) (c : Config) :
    (Config.fillName rnd c).type = c.type := by
  unfold Config.fillName; split <;> rfl

theorem fillName_source (rnd : String) (c : Config) :
    (Config.fillName rnd c).source = c.source := by
  unfold Config.fillName; split <;> rfl

theorem fillName_outputFormat (rnd : String) (c : Config) :
    (Config.fillName rnd c).outputFormat = c.outputFormat := by
  unfold Config.fillName; split <;> rfl

theorem fillName_filters (rnd : String) (c : Config) :
    (Config.fillName rnd c).filters = c.filters := by
  unfold Config.fillName; split <;> rfl

theorem fillName_mergeColumns (rnd : String) (c : Config) :
    (Config.fillName rnd c).mergeColumns = c.mergeColumns := by
  unfold Config.fillName; split <;> rfl

theorem fillName_aggregations (rnd : String) (c : Config) :
    (Config.fillName rnd c).aggregations = c.aggregations := by
  unfold Config.fillName; split <;> rfl

theorem fillName_name_ne (rnd : String) (c : Config) :
    (Config.fillName rnd c).name ≠ "" := by
  unfold Config.fillName; split
  · exact untitled_ne_empty rnd
  · assumption

theorem fillName_of_ne (rnd : String) (c : Config) (h : c.name ≠ "") :
    Config.fillName rnd c = c := by
  unfold Config.fillName
  simp [h]

theorem fillOutputFormat_name (c : Config) :
    (Config.fillOutputFormat c).name = c.name := by
  unfold Config.fillOutputFormat; split <;> rfl

theorem fillOutputFormat_type (c : Config) :
    (Config.fillOutputFormat c).type = c.type := by
  unfold Config.fillOutputFormat; split <;> rfl

theorem fillOutputFormat_source (c : Config) :
    (Config.fillOutputFormat c).source = c.source := by
  unfold Config.fillOutputFormat; split <;> rfl

theorem fillOutputFormat_filters (c : Config) :
    (Config.fillOutputFormat c).filters = c.filters := by
  unfold Config.fillOutputFormat; split <;> rfl

theorem fillOutputFormat_mergeColumns (c : Config) :
    (Config.fillOutputFormat c).mergeColumns = c.mergeColumns := by
  unfold Config.fillOutputFormat; split <;> rfl

theorem fillOutputFormat_aggregations (c : Config) :
    (Config.fillOutputFormat c).aggregations = c.aggregations := by
  unfold Config.fillOutputFormat; split <;> rfl

theorem fillOutputFormat_ne (c : Config) :
    (Config.fillOutputFormat c).outputFormat ≠ "" := by
  unfold Config.fillOutputFormat; split
  · simp
  · assumption

theorem fillOutputFormat_of_ne (c : Config) (h : c.outputFormat ≠ "") :
    Config.fillOutputFormat c = c := by
  unfold Config.fillOutputFormat
  simp [h]

theorem validateLoop_eq_none {α : Type} (label : String)
    (f : α → α × Option GoError) (l : List α) (i : Nat)
    (h : ∀ x ∈ l, (f x).2 = none) : validateLoop label f i l = none := by
  induction l generalizing i with
  | nil => rfl
  | cons x xs ih =>
    simp only [validateLoop]
    rw [h x (List.mem_cons_self x xs)]
    exact ih (i + 1) fun y hy => h y (List.mem_cons_of_mem x hy)

theorem validateLoop_isSome {α : Type} (label : String)
    (f : α → α × Option GoError) (l : List α) (i : Nat) (x : α) (hx : x ∈ l)
    (hfx : (f x).2 ≠ none) : (validateLoop label f i l).isSome := by
  induction l generalizing i with
  | nil => cases hx
  | cons y ys ih =>
    simp only [validateLoop]
    cases hyv : (f y).2 with
    | some e => simp
    | none =>
      rcases List.mem_cons.mp hx with h | h
      · rw [h] at hfx; exact absurd hyv hfx
      · exact ih (i + 1) h

theorem validateLoop_first {α : Type} (label : String)
    (f : α → α × Option GoError) :
    ∀ (l : List α) (i j : Nat) (hj : j < l.length) (e : GoError),
    (∀ k (hk : k < j), (f (l.get ⟨k, Nat.lt_trans hk hj⟩)).2 = none) →
    (f (l.get ⟨j, hj⟩)).2 = some e →
    validateLoop label f i l =
      some (.wrapf (label ++ "[" ++ toString (i + j) ++ "]: ") e) := by
  intro l
  induction l with
  | nil => intro i j hj; cases hj
  | cons x xs ih =>
    intro i j hj e hbefore hfail
    cases j with
    | zero =>
      simp only [List.get] at hfail
      simp only [validateLoop]
      rw [hfail]
      simp
    | succ k =>
      have hx : (f x).2 = none := hbefore 0 (Nat.succ_pos k)
      simp only [validateLoop]
      rw [hx]
      have hk' : k < xs.length := Nat.lt_of_succ_lt_succ hj
      have := ih (i + 1) k hk' e
        (fun k2 hk2 => hbefore (k2 + 1) (Nat.succ_lt_succ hk2))
        hfail
      rw [this]
      have : i + 1 + k = i + (k + 1) := by omega
      rw [this]

theorem incrementIter_retryAttempt (e : AuthenticationError) (k : Nat) :
    ((AuthenticationError.IncrementRetryAttempt)^[k] e).retryAttempt =
      e.retryAttempt + k := by
  induction k with
  | zero => simp
  | succ n ih =>
    rw [Function.iterate_succ_apply']
    simp [AuthenticationError.IncrementRetryAttempt, ih]
    omega

theorem incrementIter_maxRetries (e : AuthenticationError) (k : Nat) :
    ((AuthenticationError.IncrementRetryAttempt)^[k] e).maxRetries =
      e.maxRetries := by
  induction k with
  | zero => simp
  | succ n ih =>
    rw [Function.iterate_succ_apply']
    simp [AuthenticationError.IncrementRetryAttempt, ih]

theorem filterValidate_fails_of_bad_logical (fc : FilterConfig)
    (h : fc.logicalOperator ∉ validateLogicalOperators) :
    (FilterConfig.Validate fc).2 ≠ none := by
  unfold FilterConfig.Validate
  split_ifs with h1 h2 h3 h4 <;>
    simp_all [List.elem_iff]

/-- C6: a filter clause passes `FilterConfig.Validate` exactly when its
column and value are non-empty, its operator is in {eq, neq, gt, gte, lt,
lte} and its logicalOperator is in {and, or}; and `Config.Validate` fails on
every configuration whose last filter clause carries a logicalOperator
outside {and, or}, even though that operator combines with nothing. -/
theorem filter_clause_validation_characterization :
    (∀ fc : FilterConfig, (FilterConfig.Validate fc).2 = none ↔
      (fc.column ≠ "" ∧ fc.value ≠ "" ∧ fc.operator ∈ validateOperators ∧
        fc.logicalOperator ∈ validateLogicalOperators)) ∧
    (∀ (rnd : String) (c : Config) (h : c.filters ≠ []),
      (c.filters.getLast h).logicalOperator ∉ validateLogicalOperators →
      ((Config.Validate rnd c).2).isSome) := by
  constructor
  · intro fc
    unfold FilterConfig.Validate
    split_ifs with h1 h2 h3 h4 <;>
      simp_all [List.elem_iff]
  · intro rnd c hne hbad
    have hlast := List.getLast_mem hne
    have hfail := filterValidate_fails_of_bad_logical _ hbad
    simp only [Config.Validate]
    split
    · simp
    · split
      · simp
      · obtain ⟨e, he⟩ := Option.isSome_iff_exists.mp
          (validateLoop_isSome "filter" FilterConfig.Validate c.filters 0 _
            hlast hfail)
        rw [fillOutputFormat_filters, fillName_filters, he]
        simp

/-- C7: an `AuthenticationError` is retryable exactly while
`retryAttempt < maxRetries`; one built by `NewAuthenticationError` starts at
attempt 0 with `maxRetries = 3`, so after `k` calls of
`IncrementRetryAttempt` it is retryable exactly for `k < 3` — retryable at
k = 0, 1, 2 and not at k = 3. -/
theorem authentication_retry_window :
    (∀ e : AuthenticationError,
      e.IsRetryable = true ↔ e.retryAttempt < e.maxRetries) ∧
    (∀ (msg : String) (cause : Option GoError) (k : Nat),
      ((AuthenticationError.IncrementRetryAttempt)^[k]
        (NewAuthenticationError msg cause)).IsRetryable = true ↔ k < 3) := by
  constructor
  · intro e
    simp [AuthenticationError.IsRetryable]
  · intro msg cause k
    simp [AuthenticationError.IsRetryable, incrementIter_retryAttempt,
      incrementIter_maxRetries, NewAuthenticationError]

/-- C9: `AddFilter`, `AddMerge` and `AddAggregation` each append exactly one
formatted entry to their own metadata log and leave every other field of the
run record — data, row counts, timestamps, config name, data source, memory
stats, step performance, and the other two logs — unchanged. -/
theorem add_operations_append_only (p : Processing) (x a b s m t : String) :
    (p.AddFilter x).metadata.appliedFilters =
        p.metadata.appliedFilters ++ [x] ∧
    (p.AddFilter x).data = p.data ∧
    (p.AddFilter x).metadata.sourceTotalRows = p.metadata.sourceTotalRows ∧
    (p.AddFilter x).metadata.filteredTotalRows =
        p.metadata.filteredTotalRows ∧
    (p.AddFilter x).metadata.performedMerges = p.metadata.performedMerges ∧
    (p.AddFilter x).metadata.performedAggregations =
        p.metadata.performedAggregations ∧
    (p.AddFilter x).metadata.processingTime = p.metadata.processingTime ∧
    (p.AddFilter x).metadata.startTime = p.metadata.startTime ∧
    (p.AddFilter x).metadata.endTime = p.metadata.endTime ∧
    (p.AddFilter x).metadata.configName = p.metadata.configName ∧
    (p.AddFilter x).metadata.dataSource = p.metadata.dataSource ∧
    (p.AddFilter x).metadata.memoryStats = p.metadata.memoryStats ∧
    (p.AddFilter x).metadata.stepPerformance =
        p.metadata.stepPerformance ∧
    (p.AddMerge a b s).metadata.performedMerges =
        p.metadata.performedMerges ++
          [a ++ " + " ++ b ++ " (" ++ s ++ ")"] ∧
    (p.AddMerge a b s).data = p.data ∧
    (p.AddMerge a b s).metadata.sourceTotalRows =
        p.metadata.sourceTotalRows ∧
    (p.AddMerge a b s).metadata.filteredTotalRows =
        p.metadata.filteredTotalRows ∧
    (p.AddMerge a b s).metadata.appliedFilters =
        p.metadata.appliedFilters ∧
    (p.AddMerge a b s).metadata.performedAggregations =
        p.metadata.performedAggregations ∧
    (p.AddMerge a b s).metadata.processingTime =
        p.metadata.processingTime ∧
    (p.AddMerge a b s).metadata.startTime = p.metadata.startTime ∧
    (p.AddMerge a b s).metadata.endTime = p.metadata.endTime ∧
    (p.AddMerge a b s).metadata.configName = p.metadata.configName ∧
    (p.AddMerge a b s).metadata.dataSource = p.metadata.dataSource ∧
    (p.AddMerge a b s).metadata.memoryStats = p.metadata.memoryStats ∧
    (p.AddMerge a b s).metadata.stepPerformance =
        p.metadata.stepPerformance ∧
    (p.AddAggregation m t).metadata.performedAggregations =
        p.metadata.performedAggregations ++ [m ++ "(" ++ t ++ ")"] ∧
    (p.AddAggregation m t).data = p.data ∧
    (p.AddAggregation m t).metadata.sourceTotalRows =
        p.metadata.sourceTotalRows ∧
    (p.AddAggregation m t).metadata.filteredTotalRows =
        p.metadata.filteredTotalRows ∧
    (p.AddAggregation m t).metadata.appliedFilters =
        p.metadata.appliedFilters ∧
    (p.AddAggregation m t).metadata.performedMerges =
        p.metadata.performedMerges ∧
    (p.AddAggregation m t).metadata.processingTime =
        p.metadata.processingTime ∧
    (p.AddAggregation m t).metadata.startTime = p.metadata.startTime ∧
    (p.AddAggregation m t).metadata.endTime = p.metadata.endTime ∧
    (p.AddAggregation m t).metadata.configName = p.metadata.configName ∧
    (p.AddAggregation m t).metadata.dataSource = p.metadata.dataSource ∧
    (p.AddAggregation m t).metadata.memoryStats =
        p.metadata.memoryStats ∧
    (p.AddAggregation m t).metadata.stepPerformance =
        p.metadata.stepPerformance := by
  and_intros <;> rfl

/-- C2 (divergence witness): `CompleteProcess` on a run whose initial peak
allocation is 1000 bytes and whose final allocation is 500 bytes computes
`MemoryIncreasePercent = (2^64 - 500) / 1000 * 100` — the `uint64`
subtraction `memStats.Alloc - PeakAllocBytes` wraps around — so the stored
percentage is strictly positive, not the negative `-50` the specification's
signed formula `(final - initialPeak) / initialPeak * 100` yields. -/
theorem completeProcess_wraps_below_peak :
    procShrunk.metadata.memoryStats.memoryIncreasePercent =
      ((2 ^ 64 - 500 : ℚ) / 1000) * 100 ∧
    0 < procShrunk.metadata.memoryStats.memoryIncreasePercent := by
  constructor <;>
    norm_num [procShrunk, procPeak1000, Processing.CompleteProcess,
      NewProcessing, sub64]

/-- C6 (witness): a fully valid clause passes, and a configuration whose
last filter clause carries the logical operator "xor" fails validation. -/
theorem filter_clause_validation_characterization_witness :
    (FilterConfig.Validate filterEq).2 = none ∧
    ((Config.Validate "r" configBadLogical).2).isSome := by
  constructor
  · exact (filter_clause_validation_characterization.1 filterEq).mpr
      (by constructor
          · decide
          · constructor
            · decide
            · constructor <;> decide)
  · exact filter_clause_validation_characterization.2 "r" configBadLogical
      (by decide) (by decide)

/-- C1 (counterexample): on `{source:"", type:"csv"}` `Config.Validate`
returns the plain `fmt.Errorf` error "source is required"; that error is not
a `ConfigurationError` — `IsConfigurationError` is false on it — refuting
the claim that a `ConfigurationError` is returned. -/
theorem blank_source_error_not_configuration_error :
    (Config.Validate "r" configBlankSource).2 =
      some (.errorf "source is required") ∧
    IsConfigurationError (.errorf "source is required") = false :=
  ⟨rfl, rfl⟩

/-- C1 (amended): for every configuration with blank source and non-blank
type, `Config.Validate` fails with the error whose message is
"source is required" — naming the source field — but the error is a plain
formatted error, not a `ConfigurationError`: `IsConfigurationError` returns
false on it. -/
theorem blank_source_fails_with_plain_error (rnd : String) (c : Config)
    (htype : c.type ≠ "") (hsource : c.source = "") :
    (Config.Validate rnd c).2 = some (.errorf "source is required") ∧
    IsConfigurationError (.errorf "source is required") = false := by
  constructor
  · simp only [Config.Validate]
    simp [fillName_type, fillName_source, htype, hsource]
  · rfl

/-- C1 (amended, witness): the amended statement at the concrete
configuration `{name:"n", type:"csv", source:""}`. -/
theorem blank_source_fails_with_plain_error_witness :
    (Config.Validate "r" configBlankSource).2 =
      some (.errorf "source is required") ∧
    IsConfigurationError (.errorf "source is required") = false :=
  blank_source_fails_with_plain_error "r" configBlankSource (by decide) rfl

/-- C4: a merge directive with non-empty firstColumn and secondColumn, blank
strategy and blank resultColumnName validates successfully, and afterwards
its strategy is "concat" and its resultColumnName is
`firstColumn + "_" + secondColumn`. -/
theorem merge_directive_fills_defaults (m : MergeConfig)
    (h1 : m.firstColumn ≠ "") (h2 : m.secondColumn ≠ "")
    (h3 : m.strategy = "") (h4 : m.resultColumnName = "") :
    MergeConfig.Validate m =
      ({ m with strategy := "concat",
                resultColumnName := m.firstColumn ++ "_" ++ m.secondColumn },
       none) := by
  unfold MergeConfig.Validate
  simp [h1, h2, h3, h4]
  decide

/-- C4 (witness): `{firstColumn:"a", secondColumn:"b", strategy:""}` after
validation has strategy "concat" and resultColumnName "a_b". -/
theorem merge_directive_fills_defaults_witness :
    MergeConfig.Validate mergeAB =
      ({ firstColumn := "a", secondColumn := "b", strategy := "concat",
         defaultValues := [], resultColumnName := "a_b" },
       none) :=
  merge_directive_fills_defaults mergeAB (by decide) (by decide) rfl rfl

/-- C8: on success `Config.Validate` leaves a non-empty name (a random
identifier is filled in when the name was blank) and a non-empty
outputFormat (defaulted to "csv" when blank); a blank type or a blank source
makes validation fail. -/
theorem validate_success_defaults (rnd : String) (c c' : Config) :
    (Config.Validate rnd c = (c', none) →
      c'.name ≠ "" ∧ c'.outputFormat ≠ "") ∧
    (c.type = "" ∨ c.source = "" → ((Config.Validate rnd c).2).isSome) := by
  constructor
  · intro h
    simp only [Config.Validate] at h
    split at h
    · simp at h
    · split at h
      · simp at h
      · split at h
        · simp at h
        · split at h
          · simp at h
          · split at h
            · simp at h
            · rw [Prod.mk.injEq] at h
              obtain ⟨hc, -⟩ := h
              subst hc
              exact ⟨by rw [fillOutputFormat_name]; exact fillName_name_ne rnd c,
                fillOutputFormat_ne _⟩
  · intro h
    by_cases ht : c.type = ""
    · simp only [Config.Validate]
      simp [fillName_type, ht]
    · rcases h with h | h
      · exact absurd h ht
      · simp only [Config.Validate]
        simp [fillName_type, fillName_source, ht, h]

/-- C8 (witness): a configuration with non-blank name keeps it and gets
outputFormat "csv"; configurations with blank type or blank source fail. -/
theorem validate_success_defaults_witness :
    ({ configOk with outputFormat := "csv" } : Config).name ≠ "" ∧
    ({ configOk with outputFormat := "csv" } : Config).outputFormat ≠ "" ∧
    ((Config.Validate "r" { configOk with type := "" }).2).isSome ∧
    ((Config.Validate "r" configBlankSource).2).isSome := by
  obtain ⟨hn, ho⟩ := (validate_success_defaults "r" configOk
    { configOk with outputFormat := "csv" }).1 rfl
  refine ⟨hn, ho, ?_, ?_⟩
  · exact (validate_success_defaults "r" { configOk with type := "" }
      { configOk with type := "" }).2 (Or.inl rfl)
  · exact (validate_success_defaults "r" configBlankSource
      configBlankSource).2 (Or.inr rfl)

/-- C10 (divergence witness): `GetColumnCount` returns 0 on a nil `Data`,
the first row's length on non-empty data, but on a non-nil, zero-row `Data`
it evaluates `p.Data[0]` and panics (`none` in the embedding). -/
theorem getColumnCount_panics_on_empty_data :
    Processing.GetColumnCount { procPeak1000 with data := some [] } = none ∧
    Processing.GetColumnCount { procPeak1000 with data := none } = some 0 ∧
    Processing.GetColumnCount procPeak1000 = some 2 :=
  ⟨rfl, rfl, rfl⟩

theorem mapM_map_round {α : Type} (enc : α → Json) (dec : Json → Option α)
    (h : ∀ a, dec (enc a) = some a) (l : List α) :
    (l.map enc).mapM dec = some l := by
  induction l with
  | nil => rfl
  | cons x xs ih => rw [List.map_cons, List.mapM_cons, h x, ih]; rfl

theorem filter_round (fc : FilterConfig) :
    FilterConfig.fromJson (FilterConfig.toJson fc) = some fc := rfl

theorem strList_round (l : List String) (old : List String) :
    decodeStrList (some (.arr (l.map Json.str))) old = some l := by
  simp only [decodeStrList]
  exact mapM_map_round Json.str
    (fun x => match x with | .str s => some s | _ => none) (fun a => rfl) l

theorem strList_none (old : List String) :
    decodeStrList none old = some old := rfl

theorem objList_round {α : Type} (dec : Json → Option α) (enc : α → Json)
    (h : ∀ a, dec (enc a) = some a) (l old : List α) :
    decodeObjList dec (some (.arr (l.map enc))) old = some l := by
  simp only [decodeObjList]
  exact mapM_map_round enc dec h l

theorem objList_none {α : Type} (dec : Json → Option α) (old : List α) :
    decodeObjList dec none old = some old := rfl

theorem agg_round (a : Aggregation) :
    Aggregation.fromJson (Aggregation.toJson a) = some a := by
  obtain ⟨c, m, r⟩ := a
  by_cases hr : r = "" <;>
    simp [Aggregation.toJson, Aggregation.fromJson, hr, decodeStr, List.lookup]

theorem merge_round (m : MergeConfig) :
    MergeConfig.fromJson (MergeConfig.toJson m) = some m := by
  obtain ⟨f, s, st, dv, rc⟩ := m
  by_cases hd : dv = [] <;> by_cases hr : rc = "" <;>
    simp [MergeConfig.toJson, MergeConfig.fromJson, hd, hr, decodeStr,
      strList_round, strList_none, List.lookup]

theorem aggConfig_round (ac : AggregationConfig) :
    AggregationConfig.fromJson (AggregationConfig.toJson ac) = some ac := by
  obtain ⟨g, ags⟩ := ac
  simp [AggregationConfig.toJson, AggregationConfig.fromJson, strList_round,
    objList_round Aggregation.fromJson Aggregation.toJson agg_round,
    List.lookup]

theorem unmarshal_toJSON (c : Config) :
    Config.unmarshal (Config.ToJSON c) Config.zero = some c := by
  obtain ⟨n, d, cr, t, s, fs, ms, ags, o⟩ := c
  by_cases hf : fs = [] <;> by_cases hm : ms = [] <;> by_cases ha : ags = [] <;>
    simp [Config.ToJSON, Config.unmarshal, Config.zero, hf, hm, ha, decodeStr,
      List.lookup,
      objList_round FilterConfig.fromJson FilterConfig.toJson filter_round,
      objList_round MergeConfig.fromJson MergeConfig.toJson merge_round,
      objList_round AggregationConfig.fromJson AggregationConfig.toJson
        aggConfig_round,
      objList_none]

theorem validate_success_inv (rnd : String) (c c' : Config)
    (h : Config.Validate rnd c = (c', none)) :
    c'.name ≠ "" ∧ c'.type ≠ "" ∧ c'.source ≠ "" ∧ c'.outputFormat ≠ "" ∧
    validateLoop "filter" FilterConfig.Validate 0 c'.filters = none ∧
    validateLoop "mergeColumn" MergeConfig.Validate 0 c'.mergeColumns = none ∧
    validateLoop "aggregation" AggregationConfig.Validate 0
      c'.aggregations = none := by
  simp only [Config.Validate] at h
  split at h
  next hty => simp at h
  next hty =>
    split at h
    next hsr => simp at h
    next hsr =>
      split at h
      next e hfl => simp at h
      next hfl =>
        split at h
        next e hml => simp at h
        next hml =>
          split at h
          next e hal => simp at h
          next hal =>
            rw [Prod.mk.injEq] at h
            obtain ⟨hc, -⟩ := h
            subst hc
            exact ⟨by rw [fillOutputFormat_name]; exact fillName_name_ne rnd c,
              by rw [fillOutputFormat_type]; exact hty,
              by rw [fillOutputFormat_source]; exact hsr,
              fillOutputFormat_ne _, hfl, hml, hal⟩

theorem validate_of_normalized (rnd2 : String) (c' : Config)
    (h1 : c'.name ≠ "") (h2 : c'.type ≠ "") (h3 : c'.source ≠ "")
    (h4 : c'.outputFormat ≠ "")
    (h5 : validateLoop "filter" FilterConfig.Validate 0 c'.filters = none)
    (h6 : validateLoop "mergeColumn" MergeConfig.Validate 0
      c'.mergeColumns = none)
    (h7 : validateLoop "aggregation" AggregationConfig.Validate 0
      c'.aggregations = none) :
    Config.Validate rnd2 c' = (c', none) := by
  simp only [Config.Validate]
  rw [fillName_of_ne rnd2 c' h1, fillOutputFormat_of_ne c' h4]
  simp [h2, h3, h5, h6, h7]

/-- C3: every configuration on which `Validate` has succeeded serializes
with `ToJSON` and parses back with `FromJSON` successfully, yielding a
configuration whose every field equals the validated original; the
re-validation `FromJSON` performs changes no field (validation is idempotent
on a validated configuration). -/
theorem validated_config_json_roundtrip (rnd rnd2 : String) (c c' : Config)
    (h : Config.Validate rnd c = (c', none)) :
    Config.FromJSON rnd2 (Config.ToJSON c') Config.zero = some (c', none) := by
  obtain ⟨h1, h2, h3, h4, h5, h6, h7⟩ := validate_success_inv rnd c c' h
  unfold Config.FromJSON
  rw [unmarshal_toJSON]
  simp [validate_of_normalized rnd2 c' h1 h2 h3 h4 h5 h6 h7]

/-- C3 (witness): the round trip at the concrete configuration `configOk`,
whose validation succeeds filling `outputFormat := "csv"`. -/
theorem validated_config_json_roundtrip_witness :
    Config.FromJSON "r2"
      (Config.ToJSON { configOk with outputFormat := "csv" }) Config.zero =
      some (({ configOk with outputFormat := "csv" } : Config), none) :=
  validated_config_json_roundtrip "r" "r2" configOk _ rfl

/-- C5: for every configuration that reaches nested validation (non-blank
type and source), whatever the first invalid nested entry in validation
order — filters first, then mergeColumns, then aggregations — is,
`Config.Validate` returns exactly that entry's error wrapped with its
collection name and index ("filter[j]: ", "mergeColumn[j]: " or
"aggregation[j]: "). Each part constrains only the entries validated before
the failing one, so every entry after it — in the same collection or in a
later one — may be arbitrarily invalid and is never reached; and the
returned configuration's `filters`, `mergeColumns` and `aggregations` lists
are exactly the input lists: no entry after the failing one is validated or
has defaults filled (the `range` loop validates copies). -/
theorem validate_fail_fast_first_invalid :
    (∀ (rnd : String) (c : Config) (j : Nat) (e : GoError),
      c.type ≠ "" → c.source ≠ "" →
      ∀ (hj : j < c.filters.length),
      (∀ k (hk : k < j),
        (FilterConfig.Validate
          (c.filters.get ⟨k, Nat.lt_trans hk hj⟩)).2 = none) →
      (FilterConfig.Validate (c.filters.get ⟨j, hj⟩)).2 = some e →
      (Config.Validate rnd c).2 =
        some (.wrapf ("filter[" ++ toString j ++ "]: ") e) ∧
      (Config.Validate rnd c).1.filters = c.filters ∧
      (Config.Validate rnd c).1.mergeColumns = c.mergeColumns ∧
      (Config.Validate rnd c).1.aggregations = c.aggregations) ∧
    (∀ (rnd : String) (c : Config) (j : Nat) (e : GoError),
      c.type ≠ "" → c.source ≠ "" →
      (∀ f ∈ c.filters, (FilterConfig.Validate f).2 = none) →
      ∀ (hj : j < c.mergeColumns.length),
      (∀ k (hk : k < j),
        (MergeConfig.Validate
          (c.mergeColumns.get ⟨k, Nat.lt_trans hk hj⟩)).2 = none) →
      (MergeConfig.Validate (c.mergeColumns.get ⟨j, hj⟩)).2 = some e →
      (Config.Validate rnd c).2 =
        some (.wrapf ("mergeColumn[" ++ toString j ++ "]: ") e) ∧
      (Config.Validate rnd c).1.filters = c.filters ∧
      (Config.Validate rnd c).1.mergeColumns = c.mergeColumns ∧
      (Config.Validate rnd c).1.aggregations = c.aggregations) ∧
    (∀ (rnd : String) (c : Config) (j : Nat) (e : GoError),
      c.type ≠ "" → c.source ≠ "" →
      (∀ f ∈ c.filters, (FilterConfig.Validate f).2 = none) →
      (∀ m ∈ c.mergeColumns, (MergeConfig.Validate m).2 = none) →
      ∀ (hj : j < c.aggregations.length),
      (∀ k (hk : k < j),
        (AggregationConfig.Validate
          (c.aggregations.get ⟨k, Nat.lt_trans hk hj⟩)).2 = none) →
      (AggregationConfig.Validate (c.aggregations.get ⟨j, hj⟩)).2 = some e →
      (Config.Validate rnd c).2 =
        some (.wrapf ("aggregation[" ++ toString j ++ "]: ") e) ∧
      (Config.Validate rnd c).1.filters = c.filters ∧
      (Config.Validate rnd c).1.mergeColumns = c.mergeColumns ∧
      (Config.Validate rnd c).1.aggregations = c.aggregations) := by
  refine ⟨?_, ?_, ?_⟩
  · intro rnd c j e htype hsource hj hbefore hfail
    have hfl := validateLoop_first "filter" FilterConfig.Validate
      c.filters 0 j hj e hbefore hfail
    rw [Nat.zero_add] at hfl
    simp only [Config.Validate]
    simp [fillName_type, fillName_source, fillName_filters,
      fillName_mergeColumns, fillName_aggregations, fillOutputFormat_filters,
      fillOutputFormat_mergeColumns, fillOutputFormat_aggregations, htype,
      hsource, hfl]
  · intro rnd c j e htype hsource hfilters hj hbefore hfail
    have hfl : validateLoop "filter" FilterConfig.Validate 0 c.filters = none :=
      validateLoop_eq_none _ _ _ _ hfilters
    have hml := validateLoop_first "mergeColumn" MergeConfig.Validate
      c.mergeColumns 0 j hj e hbefore hfail
    rw [Nat.zero_add] at hml
    simp only [Config.Validate]
    simp [fillName_type, fillName_source, fillName_filters,
      fillName_mergeColumns, fillName_aggregations, fillOutputFormat_filters,
      fillOutputFormat_mergeColumns, fillOutputFormat_aggregations, htype,
      hsource, hfl, hml]
  · intro rnd c j e htype hsource hfilters hmerges hj hbefore hfail
    have hfl : validateLoop "filter" FilterConfig.Validate 0 c.filters = none :=
      validateLoop_eq_none _ _ _ _ hfilters
    have hml : validateLoop "mergeColumn" MergeConfig.Validate 0
        c.mergeColumns = none :=
      validateLoop_eq_none _ _ _ _ hmerges
    have hal := validateLoop_first "aggregation" AggregationConfig.Validate
      c.aggregations 0 j hj e hbefore hfail
    rw [Nat.zero_add] at hal
    simp only [Config.Validate]
    simp [fillName_type, fillName_source, fillName_filters,
      fillName_mergeColumns, fillName_aggregations, fillOutputFormat_filters,
      fillOutputFormat_mergeColumns, fillOutputFormat_aggregations, htype,
      hsource, hfl, hml, hal]

/-- C5 (witness): the three cases at concrete inputs. `configBadFilter` has
an invalid filter at index 1 and an invalid merge directive after it — the
filter error wins; `configBadMerge` has valid filters, a valid merge at
index 0 and an invalid strategy at index 1 — the index-1 merge error is
returned; `configBadAgg` has valid filters and merges and an invalid
aggregation directive at index 0. In every case the nested lists come back
unchanged. -/
theorem validate_fail_fast_first_invalid_witness :
    ((Config.Validate "r" configBadFilter).2 =
      some (.wrapf ("filter[" ++ toString 1 ++ "]: ")
        (.errorf
          "invalid logical operator 'xor', operator must be one of [and or]")) ∧
     (Config.Validate "r" configBadFilter).1.filters =
        configBadFilter.filters ∧
     (Config.Validate "r" configBadFilter).1.mergeColumns =
        configBadFilter.mergeColumns ∧
     (Config.Validate "r" configBadFilter).1.aggregations =
        configBadFilter.aggregations) ∧
    ((Config.Validate "r" configBadMerge).2 =
      some (.wrapf ("mergeColumn[" ++ toString 1 ++ "]: ")
        (.errorf
          "invalid strategy 'bogus', strategy must be one of [concat sum first second]")) ∧
     (Config.Validate "r" configBadMerge).1.filters =
        configBadMerge.filters ∧
     (Config.Validate "r" configBadMerge).1.mergeColumns =
        configBadMerge.mergeColumns ∧
     (Config.Validate "r" configBadMerge).1.aggregations =
        configBadMerge.aggregations) ∧
    ((Config.Validate "r" configBadAgg).2 =
      some (.wrapf ("aggregation[" ++ toString 0 ++ "]: ")
        (.wrapf ("aggregation[" ++ toString 0 ++ "]: ")
          (.errorf
            "invalid aggregateMethod 'bogus', aggregateMethod must be one of [sum avg min max count median]"))) ∧
     (Config.Validate "r" configBadAgg).1.filters = configBadAgg.filters ∧
     (Config.Validate "r" configBadAgg).1.mergeColumns =
        configBadAgg.mergeColumns ∧
     (Config.Validate "r" configBadAgg).1.aggregations =
        configBadAgg.aggregations) :=
  ⟨validate_fail_fast_first_invalid.1 "r" configBadFilter 1 _
      (by decide) (by decide) (by decide)
      (by intro k hk
          have hk0 : k = 0 := by omega
          subst hk0
          rfl)
      rfl,
   validate_fail_fast_first_invalid.2.1 "r" configBadMerge 1 _
      (by decide) (by decide)
      (by intro f hf
          simp [configBadMerge, configOk] at hf
          subst hf
          rfl)
      (by decide)
      (by intro k hk
          have hk0 : k = 0 := by omega
          subst hk0
          rfl)
      rfl,
   validate_fail_fast_first_invalid.2.2 "r" configBadAgg 0 _
      (by decide) (by decide)
      (by intro f hf
          simp [configBadAgg, configOk] at hf
          subst hf
          rfl)
      (by intro m hm
          simp [configBadAgg, configOk] at hm
          subst hm
          rfl)
      (by decide)
      (by intro k hk
          exact absurd hk (Nat.not_lt_zero k))
      rfl⟩

end Kanjo
